import Mathlib

/-!
Verification of the Tenstorrent HAL memory core of `tt-iree`
(`runtime/src/iree/hal/drivers/tenstorrent/`): the 32×32 tile transcoder
(`tt_buffer.cc`), buffer creation and the map/unmap protocol
(`tt_buffer.cc`), and the allocator (`tt_allocator.cc`).

The C++ sources are shallowly embedded: machine integers become `Nat`
(all index arithmetic in the modelled paths is on non-negative values far
below `2^31`, so two's-complement wraparound never occurs on the inputs
the theorems quantify over), float32 array contents become values of an
arbitrary type `α` (the transcoder is a pure index permutation and never
inspects element bits, which the polymorphic embedding makes literal),
raw pointers and `malloc`/hardware outcomes become explicit booleans in
an environment record, and the imperative store loops become a fold of
single-cell writes over the exact sequence of loop iterations.
-/

namespace TTIree

/-- Constant `TT_TILE_HEIGHT` from `tt_buffer.h`. -/
def TT_TILE_HEIGHT : Nat := 32

/-- Constant `TT_TILE_WIDTH` from `tt_buffer.h`. -/
def TT_TILE_WIDTH : Nat := 32

/-- Constant `TT_TILE_SIZE` from `tt_buffer.h` (1024 elements per tile). -/
def TT_TILE_SIZE : Nat := TT_TILE_HEIGHT * TT_TILE_WIDTH

/-- The sequence of loop iterations `(tr, tc, r, c)` of the four nested
loops shared by `iree_hal_tt_pack_to_tiles` and
`iree_hal_tt_unpack_from_tiles` in `tt_buffer.cc`, in execution order. -/
def tileQuads (numTileRows numTileCols : Nat) : List (Nat × Nat × Nat × Nat) :=
  (List.range numTileRows).flatMap fun tr =>
    (List.range numTileCols).flatMap fun tc =>
      (List.range TT_TILE_HEIGHT).flatMap fun r =>
        (List.range TT_TILE_WIDTH).map fun c => (tr, tc, r, c)

/-- Index `src_idx = (tr*TT_TILE_HEIGHT + r) * cols + (tc*TT_TILE_WIDTH + c)`:
the row-major index computed in the loop body of
`iree_hal_tt_pack_to_tiles` (and the `dst_idx` of
`iree_hal_tt_unpack_from_tiles`). -/
def rowMajorIdx (cols : Nat) (q : Nat × Nat × Nat × Nat) : Nat :=
  (q.1 * TT_TILE_HEIGHT + q.2.2.1) * cols + (q.2.1 * TT_TILE_WIDTH + q.2.2.2)

/-- Index `dst_idx = (tr*num_tile_cols + tc) * TT_TILE_SIZE + r*TT_TILE_WIDTH + c`:
the tiled index computed in the loop body of `iree_hal_tt_pack_to_tiles`
(and the `src_idx` of `iree_hal_tt_unpack_from_tiles`). -/
def tiledIdx (numTileCols : Nat) (q : Nat × Nat × Nat × Nat) : Nat :=
  (q.1 * numTileCols + q.2.1) * TT_TILE_SIZE + q.2.2.1 * TT_TILE_WIDTH + q.2.2.2

/-- Replays a list of single-cell stores `dst[k] = v` (in list order, later
stores winning) on top of an initial memory `dst`; the standard shallow
embedding of the loop nests' `dst[dst_idx] = src[src_idx]` writes. -/
def applyWrites (dst : Nat → α) : List (Nat × α) → Nat → α
  | [] => dst
  | p :: rest => applyWrites (fun i => if i = p.1 then p.2 else dst i) rest

/-- Function `iree_hal_tt_pack_to_tiles` from `tt_buffer.cc` lines 20–39.
Row-major `src` is stored tile-by-tile into `dst`.  The C guard
`!src || !dst || rows <= 0 || cols <= 0` returns `dst` unchanged; with
`Nat` dimensions (the `int32_t` values are non-negative in every modelled
call) the reachable guard is `rows = 0 ∨ cols = 0`, and null pointers have
no counterpart in the functional embedding. -/
def iree_hal_tt_pack_to_tiles (src dst : Nat → α) (rows cols : Nat) : Nat → α :=
  if rows = 0 ∨ cols = 0 then dst else
    let numTileRows := rows / TT_TILE_HEIGHT
    let numTileCols := cols / TT_TILE_WIDTH
    applyWrites dst ((tileQuads numTileRows numTileCols).map fun q =>
      (tiledIdx numTileCols q, src (rowMajorIdx cols q)))

/-- Function `iree_hal_tt_unpack_from_tiles` from `tt_buffer.cc` lines 41–60.
Tile-ordered `src` is stored back row-major into `dst`; same loop nest as
`pack` with the roles of the two computed indices swapped. -/
def iree_hal_tt_unpack_from_tiles (src dst : Nat → α) (rows cols : Nat) : Nat → α :=
  if rows = 0 ∨ cols = 0 then dst else
    let numTileRows := rows / TT_TILE_HEIGHT
    let numTileCols := cols / TT_TILE_WIDTH
    applyWrites dst ((tileQuads numTileRows numTileCols).map fun q =>
      (rowMajorIdx cols q, src (tiledIdx numTileCols q)))

/-! ### Status codes, buffers and the shape-inference heuristic -/

/-- Subset of the `iree_status_t` codes produced or discussed by this driver. -/
inductive TTStatus
  | ok
  | resourceExhausted
  | unavailable
  | invalidArgument
  | unimplemented
deriving DecidableEq, Repr

/-- Logical shape a buffer carries: `rows`, `cols`, `uses_tile_layout`
(fields of `iree_hal_tt_buffer_t` in `tt_buffer.cc`). -/
structure TTShape where
  rows : Nat
  cols : Nat
  uses_tile_layout : Bool
deriving DecidableEq, Repr

/-- Shape inference at buffer construction, `tt_buffer.cc` lines 112–124:
`num_elements = allocation_size / sizeof(float)`; if `num_elements == 1024`
then `rows = cols = 32`, else `rows = cols` start at
`(int32_t)std::sqrt((double)num_elements)` and are rounded up with
`((x + 31) / 32) * 32`; finally
`uses_tile_layout = (rows % 32 == 0) && (cols % 32 == 0)`.
The `double` square root truncated to `int32_t` coincides with `Nat.sqrt`
for every `num_elements < 2^52` (far above the heap's 28 GiB ceiling), which
is how the cast chain is embedded. -/
def inferShape (allocation_size : Nat) : TTShape :=
  let num_elements := allocation_size / 4
  let dims :=
    if num_elements = 1024 then (32, 32)
    else
      let r := Nat.sqrt num_elements
      ((r + 31) / 32 * 32, (r + 31) / 32 * 32)
  { rows := dims.1, cols := dims.2,
    uses_tile_layout := (dims.1 % 32 == 0) && (dims.2 % 32 == 0) }

/-- Buffer object as visible to the claims: the fields of
`iree_hal_tt_buffer_t` set by `iree_hal_tt_buffer_create`
(`base.allocation_size`, `rows`, `cols`, `uses_tile_layout`). -/
structure TTBuffer where
  allocation_size : Nat
  rows : Nat
  cols : Nat
  uses_tile_layout : Bool
deriving DecidableEq, Repr

/-- Outcomes of the external calls `iree_hal_tt_buffer_create`,
`map_range` and `unmap_range` depend on, plus the indeterminate contents of
freshly `malloc`ed memory and the device-resident data.  Hardware words are
modelled at float32 granularity as `Nat` bit patterns. -/
structure TTEnv where
  struct_malloc_ok : Bool
  device_present : Bool
  create_buffer_ok : Bool
  staging_malloc_ok : Bool
  tiled_malloc_ok : Bool
  read_ok : Bool
  write_ok : Bool
  device_data : Nat → Nat
  staging_junk : Nat → Nat
  tiled_junk : Nat → Nat

/-- Result of `iree_hal_tt_buffer_create`: the returned status, the
`*out_buffer` value, and how many host heap blocks obtained inside the call
are still allocated when it returns and are not owned by a returned buffer
(0 on every failure path = full cleanup; 0 on success too, since the struct
is then owned by `*out_buffer`). -/
structure TTCreateResult where
  status : TTStatus
  out_buffer : Option TTBuffer
  unowned_host_blocks : Nat
deriving Repr

/-- Function `iree_hal_tt_buffer_create` from `tt_buffer.cc` lines 93–183
(hardware branch, `TT_IREE_ENABLE_MOCK` undefined): allocate the struct
(RESOURCE_EXHAUSTED from `iree_allocator_malloc` on failure), infer the
shape, then require a live TT-Metal device (UNAVAILABLE otherwise) and a
successful `tt::tt_metal::CreateBuffer` (RESOURCE_EXHAUSTED when it
throws); on failure the struct is destroyed and freed before returning. -/
def iree_hal_tt_buffer_create (env : TTEnv) (allocation_size : Nat) : TTCreateResult :=
  if !env.struct_malloc_ok then
    { status := .resourceExhausted, out_buffer := none, unowned_host_blocks := 0 }
  else
    let shape := inferShape allocation_size
    if !env.device_present then
      { status := .unavailable, out_buffer := none, unowned_host_blocks := 0 }
    else if !env.create_buffer_ok then
      { status := .resourceExhausted, out_buffer := none, unowned_host_blocks := 0 }
    else
      { status := .ok,
        out_buffer := some { allocation_size := allocation_size, rows := shape.rows,
                             cols := shape.cols, uses_tile_layout := shape.uses_tile_layout },
        unowned_host_blocks := 0 }

/-- Result of `iree_hal_tt_buffer_map_range`: status, the staging span
stored into `mapping->contents` (`none` when the call fails and no span is
handed out), and whether the non-tiled verbatim `memcpy` branch ran. -/
structure TTMapResult where
  status : TTStatus
  contents : Option (Nat → Nat)
  took_verbatim_branch : Bool

/-- Function `iree_hal_tt_buffer_map_range` from `tt_buffer.cc` lines
204–261 (hardware branch).  Staging memory is `malloc(local_byte_length)`
(RESOURCE_EXHAUSTED on failure).  If access includes READ, a second
temporary of the full allocation size is `malloc`ed (RESOURCE_EXHAUSTED on
failure, staging freed), the whole backing allocation is read back
blocking, then either unpacked into staging (tile layout) or copied
verbatim; if the read-back throws, staging is zero-filled for the full
requested length and the call still succeeds.  Without READ, staging is
zero-filled.  Spans are modelled at float32-word granularity:
`local_byte_length / 4` words. -/
def iree_hal_tt_buffer_map_range (env : TTEnv) (b : TTBuffer)
    (access_read : Bool) (local_byte_length : Nat) : TTMapResult :=
  if !env.staging_malloc_ok then
    { status := .resourceExhausted, contents := none, took_verbatim_branch := false }
  else if access_read then
    if !env.tiled_malloc_ok then
      { status := .resourceExhausted, contents := none, took_verbatim_branch := false }
    else if env.read_ok then
      if b.uses_tile_layout then
        { status := .ok,
          contents := some (iree_hal_tt_unpack_from_tiles env.device_data
            env.staging_junk b.rows b.cols),
          took_verbatim_branch := false }
      else
        { status := .ok,
          contents := some (fun i =>
            if i < local_byte_length / 4 then env.device_data i else env.staging_junk i),
          took_verbatim_branch := true }
    else
      { status := .ok,
        contents := some (fun i =>
          if i < local_byte_length / 4 then 0 else env.staging_junk i),
        took_verbatim_branch := false }
  else
    { status := .ok,
      contents := some (fun i =>
        if i < local_byte_length / 4 then 0 else env.staging_junk i),
      took_verbatim_branch := false }

/-- Result of `iree_hal_tt_buffer_unmap_range`: status, the payload of the
`EnqueueWriteBuffer` call if one was issued, whether the staging span was
freed, the value of `mapping->contents` after the call (`none` is the empty
span), and whether the non-tiled verbatim write branch ran. -/
structure TTUnmapResult where
  status : TTStatus
  issued_write : Option (Nat → Nat)
  staging_freed : Bool
  contents_after : Option (Nat → Nat)
  took_verbatim_branch : Bool

/-- Function `iree_hal_tt_buffer_unmap_range` from `tt_buffer.cc` lines
263–305 (hardware branch).  With tile layout, a temporary is `malloc`ed
and, when that succeeds, the staging contents are packed into it and
written blocking to the device (a silent no-op when the `malloc` fails);
otherwise the staging contents are written verbatim.  A throwing write is
swallowed (`catch (...)`), the staging span is always freed, the mapping
is always reset to the empty span, and the call always returns OK. -/
def iree_hal_tt_buffer_unmap_range (env : TTEnv) (b : TTBuffer)
    (staging : Nat → Nat) : TTUnmapResult :=
  if b.uses_tile_layout then
    if env.tiled_malloc_ok then
      { status := .ok,
        issued_write := some (iree_hal_tt_pack_to_tiles staging env.tiled_junk b.rows b.cols),
        staging_freed := true, contents_after := none, took_verbatim_branch := false }
    else
      { status := .ok, issued_write := none,
        staging_freed := true, contents_after := none, took_verbatim_branch := false }
  else
    { status := .ok, issued_write := some staging,
      staging_freed := true, contents_after := none, took_verbatim_branch := true }

/-! ### Allocator -/

/-- Counters of `iree_hal_allocator_statistics_t` tracked by the
allocator, `memset` to zero in `iree_hal_tt_allocator_create`. -/
structure AllocatorStatistics where
  host_bytes_allocated : Nat
  host_bytes_freed : Nat
  device_bytes_allocated : Nat
  device_bytes_freed : Nat
deriving DecidableEq, Repr

/-- Initial statistics: `memset(&allocator->statistics, 0, ...)` in
`iree_hal_tt_allocator_create` (`tt_allocator.cc` line 49). -/
def initStatistics : AllocatorStatistics :=
  { host_bytes_allocated := 0, host_bytes_freed := 0,
    device_bytes_allocated := 0, device_bytes_freed := 0 }

/-- Size rounding `((allocation_size + 31) / 32) * 32` used by
`iree_hal_tt_allocator_allocate_buffer` (`tt_allocator.cc` line 118). -/
def round32 (n : Nat) : Nat := (n + 31) / 32 * 32

/-- Function `iree_hal_tt_allocator_allocate_buffer` from `tt_allocator.cc`
lines 111–128: round the size up to a multiple of 32, create the buffer,
and on success add the rounded size to `device_bytes_allocated` (the host
counters are never touched in this translation unit). -/
def iree_hal_tt_allocator_allocate_buffer (env : TTEnv)
    (stats : AllocatorStatistics) (allocation_size : Nat) :
    TTCreateResult × AllocatorStatistics :=
  let rounded := round32 allocation_size
  let result := iree_hal_tt_buffer_create env rounded
  if result.status = .ok then
    (result, { stats with device_bytes_allocated := stats.device_bytes_allocated + rounded })
  else
    (result, stats)

/-- Function `iree_hal_tt_allocator_deallocate_buffer` from
`tt_allocator.cc` lines 130–134: add the buffer's allocation size to
`device_bytes_freed`. -/
def iree_hal_tt_allocator_deallocate_buffer (stats : AllocatorStatistics)
    (buffer : TTBuffer) : AllocatorStatistics :=
  { stats with device_bytes_freed := stats.device_bytes_freed + buffer.allocation_size }

/-- Buffer-usage flag set, the four `IREE_HAL_BUFFER_USAGE_*` bits the spec
discusses for this driver's heap. -/
structure TTBufferUsage where
  transfer : Bool
  dispatch_storage : Bool
  dispatch_indirect_parameters : Bool
  dispatch_uniform_read : Bool
deriving DecidableEq, Repr

/-- Memory-heap descriptor (`iree_hal_allocator_memory_heap_t` fields the
driver fills in). -/
structure TTMemoryHeap where
  device_local : Bool
  allowed_usage : TTBufferUsage
  max_allocation_size : Nat
  min_alignment : Nat
deriving DecidableEq, Repr

/-- Heap entry written by `iree_hal_tt_allocator_query_memory_heaps` in
`tt_allocator.cc` lines 86–92: device-local,
`IREE_HAL_BUFFER_USAGE_TRANSFER | IREE_HAL_BUFFER_USAGE_DISPATCH_STORAGE`,
`28ULL * 1024 * 1024 * 1024` bytes, 32-byte minimum alignment. -/
def ttHeapEntry : TTMemoryHeap :=
  { device_local := true,
    allowed_usage := { transfer := true, dispatch_storage := true,
                       dispatch_indirect_parameters := false,
                       dispatch_uniform_read := false },
    max_allocation_size := 28 * 1024 * 1024 * 1024,
    min_alignment := 32 }

/-- Function `iree_hal_tt_allocator_query_memory_heaps` from
`tt_allocator.cc` lines 79–95: `*out_count = 1` always; the single heap
entry is written only when `capacity >= 1` (the returned list is the slice
of the output array the call wrote). -/
def iree_hal_tt_allocator_query_memory_heaps (capacity : Nat) :
    Nat × List TTMemoryHeap :=
  (1, if 1 ≤ capacity then [ttHeapEntry] else [])

/-- Buffer parameters as tested by the compatibility query: whether
`params->type` has the `IREE_HAL_MEMORY_TYPE_DEVICE_LOCAL` bit. -/
structure TTBufferParams where
  device_local : Bool
deriving DecidableEq, Repr

/-- Compatibility flag values returned by this driver. -/
inductive TTCompatibility
  | none
  | allocatable
deriving DecidableEq, Repr

/-- Function `iree_hal_tt_allocator_query_buffer_compatibility` from
`tt_allocator.cc` lines 97–109: the in/out size is rounded up to the next
multiple of 32 when not already aligned (also on the NONE path), then NONE
unless the memory type is device-local, else ALLOCATABLE. -/
def iree_hal_tt_allocator_query_buffer_compatibility (params : TTBufferParams)
    (allocation_size : Nat) : TTCompatibility × Nat :=
  let size' := if allocation_size % 32 ≠ 0 then (allocation_size + 31) / 32 * 32
               else allocation_size
  if !params.device_local then (.none, size')
  else (.allocatable, size')

/-! ### Allocator traces for the statistics claims -/

/-- Environment in which every external call succeeds; the successful
`allocate_buffer` calls of the statistics claim run in it. -/
def ttOkEnv : TTEnv :=
  { struct_malloc_ok := true, device_present := true, create_buffer_ok := true,
    staging_malloc_ok := true, tiled_malloc_ok := true, read_ok := true,
    write_ok := true, device_data := fun _ => 0, staging_junk := fun _ => 0,
    tiled_junk := fun _ => 0 }

/-- One allocator operation: a successful `allocate_buffer(size)` or a
`deallocate_buffer` of a buffer this allocator allocated. -/
inductive TTAllocOp
  | allocate (size : Nat)
  | deallocate (b : TTBuffer)
deriving DecidableEq, Repr

/-- Allocator state: its statistics plus the outstanding (live) buffers it
has allocated and not yet seen deallocated. -/
structure TTAllocatorState where
  stats : AllocatorStatistics
  live : List TTBuffer
deriving Repr

/-- Fresh allocator right after `iree_hal_tt_allocator_create`. -/
def ttAllocatorInit : TTAllocatorState :=
  { stats := initStatistics, live := [] }

/-- Applies one operation to the allocator state through the embedded
`allocate_buffer` / `deallocate_buffer` functions. -/
def ttAllocatorStep (s : TTAllocatorState) : TTAllocOp → TTAllocatorState
  | .allocate size =>
      let (result, stats') := iree_hal_tt_allocator_allocate_buffer ttOkEnv s.stats size
      { stats := stats',
        live := match result.out_buffer with
          | some b => b :: s.live
          | Option.none => s.live }
  | .deallocate b =>
      { stats := iree_hal_tt_allocator_deallocate_buffer s.stats b,
        live := s.live.erase b }

/-- Runs a sequence of operations. -/
def ttAllocatorRun (s : TTAllocatorState) : List TTAllocOp → TTAllocatorState
  | [] => s
  | op :: ops => ttAllocatorRun (ttAllocatorStep s op) ops

/-- Validity of a trace: every `deallocate` names a buffer that is live at
that point, i.e. one this allocator allocated and that has not been
deallocated before. -/
def ttTraceValid (s : TTAllocatorState) : List TTAllocOp → Bool
  | [] => true
  | .allocate size :: ops => ttTraceValid (ttAllocatorStep s (.allocate size)) ops
  | .deallocate b :: ops =>
      decide (b ∈ s.live) && ttTraceValid (ttAllocatorStep s (.deallocate b)) ops

/-- Total of `round32 size` over the `allocate` operations of a trace. -/
def traceAllocatedBytes : List TTAllocOp → Nat
  | [] => 0
  | .allocate size :: ops => round32 size + traceAllocatedBytes ops
  | .deallocate _ :: ops => traceAllocatedBytes ops

/-- Componentwise order on statistics used to state monotonicity. -/
def statsLe (a b : AllocatorStatistics) : Prop :=
  a.host_bytes_allocated ≤ b.host_bytes_allocated ∧
  a.host_bytes_freed ≤ b.host_bytes_freed ∧
  a.device_bytes_allocated ≤ b.device_bytes_allocated ∧
  a.device_bytes_freed ≤ b.device_bytes_freed

/-- Total allocation size of the outstanding buffers. -/
def liveBytes (s : TTAllocatorState) : Nat :=
  (s.live.map TTBuffer.allocation_size).sum

/-! ### Generic facts about `applyWrites` -/

theorem applyWrites_not_mem {α : Type} (L : List (Nat × α)) :
    ∀ (dst : Nat → α) (i : Nat), i ∉ L.map Prod.fst → applyWrites dst L i = dst i := by
  induction L with
  | nil => intro dst i _; rfl
  | cons p rest ih =>
      intro dst i hi
      simp only [List.map_cons, List.mem_cons, not_or] at hi
      simp only [applyWrites]
      rw [ih _ i hi.2, if_neg hi.1]

theorem applyWrites_eq_of_mem {α : Type} (L : List (Nat × α)) :
    ∀ (dst : Nat → α) (k : Nat) (v : α), (k, v) ∈ L →
      (∀ p ∈ L, p.1 = k → p.2 = v) → applyWrites dst L k = v := by
  induction L with
  | nil => intro dst k v h _; exact absurd h (List.not_mem_nil _)
  | cons p rest ih =>
      intro dst k v hmem huniq
      by_cases hrest : (k, v) ∈ rest
      · exact ih _ k v hrest fun q hq => huniq q (List.mem_cons_of_mem _ hq)
      · have hp : p = (k, v) := by
          rcases List.mem_cons.mp hmem with h | h
          · exact h.symm
          · exact absurd h hrest
        subst hp
        have hknot : k ∉ rest.map Prod.fst := by
          intro hk
          rcases List.mem_map.mp hk with ⟨q, hq, hq1⟩
          have := huniq q (List.mem_cons_of_mem _ hq) hq1
          exact hrest (by rw [← hq1, ← this]; simpa using hq)
        simp only [applyWrites]
        rw [applyWrites_not_mem rest _ k hknot, if_pos rfl]

theorem mem_tileQuads {numTileRows numTileCols : Nat} {q : Nat × Nat × Nat × Nat} :
    q ∈ tileQuads numTileRows numTileCols ↔
      q.1 < numTileRows ∧ q.2.1 < numTileCols ∧
      q.2.2.1 < TT_TILE_HEIGHT ∧ q.2.2.2 < TT_TILE_WIDTH := by
  obtain ⟨tr, tc, r, c⟩ := q
  simp only [tileQuads, List.mem_flatMap, List.mem_map, List.mem_range]
  constructor
  · rintro ⟨a, ha, b, hb, d, hd, e, he, hq⟩
    obtain ⟨rfl, rfl, rfl, rfl⟩ := Prod.mk.injEq .. ▸ (by
      injection hq with h1 h2
      injection h2 with h3 h4
      injection h4 with h5 h6
      exact ⟨h1.symm, h3.symm, h5.symm, h6.symm⟩ :
        tr = a ∧ tc = b ∧ r = d ∧ c = e)
    exact ⟨ha, hb, hd, he⟩
  · rintro ⟨h1, h2, h3, h4⟩
    exact ⟨tr, h1, tc, h2, r, h3, c, h4, rfl⟩

/-! ### Mixed-radix arithmetic for the two index maps -/

theorem mul_add_div_eq {a b n : Nat} (hn : 0 < n) (hb : b < n) : (a * n + b) / n = a := by
  rw [Nat.mul_comm, Nat.mul_add_div hn, Nat.div_eq_of_lt hb, Nat.add_zero]

theorem mul_add_mod_eq {a b n : Nat} (hb : b < n) : (a * n + b) % n = b := by
  rw [Nat.mul_comm, Nat.mul_add_mod, Nat.mod_eq_of_lt hb]

theorem tiledIdx_components {numTileCols : Nat} (tr tc r c : Nat)
    (h2 : tc < numTileCols) (h3 : r < 32) (h4 : c < 32) :
    tiledIdx numTileCols (tr, tc, r, c) % 1024 % 32 = c ∧
    tiledIdx numTileCols (tr, tc, r, c) % 1024 / 32 = r ∧
    tiledIdx numTileCols (tr, tc, r, c) / 1024 % numTileCols = tc ∧
    tiledIdx numTileCols (tr, tc, r, c) / 1024 / numTileCols = tr := by
  have hTC : 0 < numTileCols := Nat.lt_of_le_of_lt (Nat.zero_le tc) h2
  have hin : r * 32 + c < 1024 := by omega
  have e : tiledIdx numTileCols (tr, tc, r, c) =
      (tr * numTileCols + tc) * 1024 + (r * 32 + c) := by
    simp only [tiledIdx, TT_TILE_SIZE, TT_TILE_HEIGHT, TT_TILE_WIDTH]
    ring
  rw [e, mul_add_mod_eq hin, mul_add_div_eq (by norm_num) hin,
    mul_add_mod_eq h4, mul_add_div_eq (by norm_num) h4,
    mul_add_mod_eq h2, mul_add_div_eq hTC h2]
  exact ⟨rfl, rfl, rfl, rfl⟩

theorem tiledIdx_inj {numTileCols : Nat} {q q' : Nat × Nat × Nat × Nat}
    (hq : q.2.1 < numTileCols ∧ q.2.2.1 < 32 ∧ q.2.2.2 < 32)
    (hq' : q'.2.1 < numTileCols ∧ q'.2.2.1 < 32 ∧ q'.2.2.2 < 32)
    (h : tiledIdx numTileCols q = tiledIdx numTileCols q') : q = q' := by
  obtain ⟨tr, tc, r, c⟩ := q
  obtain ⟨tr', tc', r', c'⟩ := q'
  obtain ⟨h1, h2, h3⟩ := hq
  obtain ⟨h1', h2', h3'⟩ := hq'
  have C := tiledIdx_components tr tc r c h1 h2 h3
  have C' := tiledIdx_components tr' tc' r' c' h1' h2' h3'
  rw [h] at C
  obtain ⟨e1, e2, e3, e4⟩ := C
  obtain ⟨e1', e2', e3', e4'⟩ := C'
  simp only [Prod.mk.injEq]
  omega

theorem tiledIdx_surj {numTileRows numTileCols : Nat} (hTC : 0 < numTileCols)
    (j : Nat) (hj : j < numTileRows * numTileCols * 1024) :
    ∃ q : Nat × Nat × Nat × Nat,
      (q.1 < numTileRows ∧ q.2.1 < numTileCols ∧ q.2.2.1 < 32 ∧ q.2.2.2 < 32) ∧
      tiledIdx numTileCols q = j := by
  refine ⟨(j / 1024 / numTileCols, j / 1024 % numTileCols, j % 1024 / 32, j % 32), ⟨?_, ?_, ?_, ?_⟩, ?_⟩
  · show j / 1024 / numTileCols < numTileRows
    have h1 : j / 1024 < numTileRows * numTileCols := by
      rw [Nat.div_lt_iff_lt_mul (by norm_num : (0:Nat) < 1024)]
      exact hj
    exact Nat.div_lt_of_lt_mul (by rw [Nat.mul_comm] at h1; exact h1)
  · show j / 1024 % numTileCols < numTileCols
    exact Nat.mod_lt _ hTC
  · show j % 1024 / 32 < 32
    omega
  · show j % 32 < 32
    omega
  · have e : tiledIdx numTileCols
        (j / 1024 / numTileCols, j / 1024 % numTileCols, j % 1024 / 32, j % 32) =
        (j / 1024 / numTileCols * numTileCols + j / 1024 % numTileCols) * 1024 +
          (j % 1024 / 32 * 32 + j % 32) := by
      simp only [tiledIdx, TT_TILE_SIZE, TT_TILE_HEIGHT, TT_TILE_WIDTH]
      ring
    rw [e, Nat.div_add_mod' (j / 1024) numTileCols]
    have h32 : j % 1024 / 32 * 32 + j % 32 = j % 1024 := by omega
    rw [h32]
    omega

theorem rowMajorIdx_components {cols : Nat} (tr tc r c : Nat) (hc32 : cols % 32 = 0)
    (hc0 : 0 < cols) (h2 : tc < cols / 32) (h3 : r < 32) (h4 : c < 32) :
    rowMajorIdx cols (tr, tc, r, c) % cols % 32 = c ∧
    rowMajorIdx cols (tr, tc, r, c) % cols / 32 = tc ∧
    rowMajorIdx cols (tr, tc, r, c) / cols % 32 = r ∧
    rowMajorIdx cols (tr, tc, r, c) / cols / 32 = tr := by
  have hcol : tc * 32 + c < cols := by omega
  have e : rowMajorIdx cols (tr, tc, r, c) = (tr * 32 + r) * cols + (tc * 32 + c) := by
    simp only [rowMajorIdx, TT_TILE_HEIGHT, TT_TILE_WIDTH]
  rw [e, mul_add_mod_eq hcol, mul_add_div_eq hc0 hcol,
    mul_add_mod_eq h4, mul_add_div_eq (by norm_num) h4,
    mul_add_mod_eq h3, mul_add_div_eq (by norm_num) h3]
  exact ⟨rfl, rfl, rfl, rfl⟩

theorem rowMajorIdx_inj {cols : Nat} {q q' : Nat × Nat × Nat × Nat}
    (hc32 : cols % 32 = 0) (hc0 : 0 < cols)
    (hq : q.2.1 < cols / 32 ∧ q.2.2.1 < 32 ∧ q.2.2.2 < 32)
    (hq' : q'.2.1 < cols / 32 ∧ q'.2.2.1 < 32 ∧ q'.2.2.2 < 32)
    (h : rowMajorIdx cols q = rowMajorIdx cols q') : q = q' := by
  obtain ⟨tr, tc, r, c⟩ := q
  obtain ⟨tr', tc', r', c'⟩ := q'
  obtain ⟨h1, h2, h3⟩ := hq
  obtain ⟨h1', h2', h3'⟩ := hq'
  have C := rowMajorIdx_components tr tc r c hc32 hc0 h1 h2 h3
  have C' := rowMajorIdx_components tr' tc' r' c' hc32 hc0 h1' h2' h3'
  rw [h] at C
  obtain ⟨e1, e2, e3, e4⟩ := C
  obtain ⟨e1', e2', e3', e4'⟩ := C'
  simp only [Prod.mk.injEq]
  omega

theorem rowMajorIdx_surj {rows cols : Nat} (hr32 : rows % 32 = 0) (hc32 : cols % 32 = 0)
    (hc0 : 0 < cols) (j : Nat) (hj : j < rows * cols) :
    ∃ q : Nat × Nat × Nat × Nat,
      (q.1 < rows / 32 ∧ q.2.1 < cols / 32 ∧ q.2.2.1 < 32 ∧ q.2.2.2 < 32) ∧
      rowMajorIdx cols q = j := by
  have hrow : j / cols < rows := Nat.div_lt_of_lt_mul (by rw [Nat.mul_comm] at hj; exact hj)
  refine ⟨(j / cols / 32, j % cols / 32, j / cols % 32, j % cols % 32), ⟨?_, ?_, ?_, ?_⟩, ?_⟩
  · show j / cols / 32 < rows / 32
    omega
  · show j % cols / 32 < cols / 32
    have h1 : j % cols < cols := Nat.mod_lt _ hc0
    omega
  · show j / cols % 32 < 32
    omega
  · show j % cols % 32 < 32
    omega
  · have e : rowMajorIdx cols (j / cols / 32, j % cols / 32, j / cols % 32, j % cols % 32) =
        (j / cols / 32 * 32 + j / cols % 32) * cols + (j % cols / 32 * 32 + j % cols % 32) := by
      simp only [rowMajorIdx, TT_TILE_HEIGHT, TT_TILE_WIDTH]
    rw [e]
    have h1 : j / cols / 32 * 32 + j / cols % 32 = j / cols := by omega
    have h2 : j % cols / 32 * 32 + j % cols % 32 = j % cols := by omega
    rw [h1, h2]
    exact Nat.div_add_mod' j cols

/-! ### Pointwise characterization of pack and unpack -/

theorem pack_at_tiledIdx {α : Type} (src dst : Nat → α) (rows cols : Nat)
    (hr32 : rows % 32 = 0) (hc32 : cols % 32 = 0) (hr0 : 0 < rows) (hc0 : 0 < cols)
    (q : Nat × Nat × Nat × Nat)
    (hq : q.1 < rows / 32 ∧ q.2.1 < cols / 32 ∧ q.2.2.1 < 32 ∧ q.2.2.2 < 32) :
    iree_hal_tt_pack_to_tiles src dst rows cols (tiledIdx (cols / 32) q) =
      src (rowMajorIdx cols q) := by
  have hguard : ¬(rows = 0 ∨ cols = 0) := by omega
  unfold iree_hal_tt_pack_to_tiles
  rw [if_neg hguard]
  simp only [TT_TILE_HEIGHT, TT_TILE_WIDTH]
  apply applyWrites_eq_of_mem
  · exact List.mem_map.mpr ⟨q, mem_tileQuads.mpr ⟨hq.1, hq.2.1, hq.2.2.1, hq.2.2.2⟩, rfl⟩
  · intro p hp h1
    obtain ⟨q', hq', rfl⟩ := List.mem_map.mp hp
    have hb' := mem_tileQuads.mp hq'
    have : q' = q :=
      tiledIdx_inj ⟨hb'.2.1, hb'.2.2.1, hb'.2.2.2⟩ ⟨hq.2.1, hq.2.2.1, hq.2.2.2⟩ h1
    rw [this]

theorem unpack_at_rowMajorIdx {α : Type} (src dst : Nat → α) (rows cols : Nat)
    (hr32 : rows % 32 = 0) (hc32 : cols % 32 = 0) (hr0 : 0 < rows) (hc0 : 0 < cols)
    (q : Nat × Nat × Nat × Nat)
    (hq : q.1 < rows / 32 ∧ q.2.1 < cols / 32 ∧ q.2.2.1 < 32 ∧ q.2.2.2 < 32) :
    iree_hal_tt_unpack_from_tiles src dst rows cols (rowMajorIdx cols q) =
      src (tiledIdx (cols / 32) q) := by
  have hguard : ¬(rows = 0 ∨ cols = 0) := by omega
  unfold iree_hal_tt_unpack_from_tiles
  rw [if_neg hguard]
  simp only [TT_TILE_HEIGHT, TT_TILE_WIDTH]
  apply applyWrites_eq_of_mem
  · exact List.mem_map.mpr ⟨q, mem_tileQuads.mpr ⟨hq.1, hq.2.1, hq.2.2.1, hq.2.2.2⟩, rfl⟩
  · intro p hp h1
    obtain ⟨q', hq', rfl⟩ := List.mem_map.mp hp
    have hb' := mem_tileQuads.mp hq'
    have : q' = q :=
      rowMajorIdx_inj hc32 hc0 ⟨hb'.2.1, hb'.2.2.1, hb'.2.2.2⟩ ⟨hq.2.1, hq.2.2.1, hq.2.2.2⟩ h1
    rw [this]

theorem dims_factor {rows cols : Nat} (hr32 : rows % 32 = 0) (hc32 : cols % 32 = 0) :
    rows * cols = rows / 32 * (cols / 32) * 1024 := by
  have h1 : 32 * (rows / 32) = rows := Nat.mul_div_cancel' (Nat.dvd_of_mod_eq_zero hr32)
  have h2 : 32 * (cols / 32) = cols := Nat.mul_div_cancel' (Nat.dvd_of_mod_eq_zero hc32)
  conv_lhs => rw [← h1, ← h2]
  ring

/-- C1: for every `rows`, `cols` that are positive multiples of 32 and every
array `A` of `rows*cols` elements (elements of an arbitrary type `α`, hence
in particular every float32 bit pattern: NaN, Infinity, subnormal, signed
zero), `unpack(pack(A))` and `pack(unpack(A))` agree with `A` on every index
of the array, bit for bit — both transforms are pure index permutations. -/
theorem tile_pack_unpack_roundtrip {α : Type} (rows cols : Nat)
    (hr32 : rows % 32 = 0) (hc32 : cols % 32 = 0) (hr0 : 0 < rows) (hc0 : 0 < cols)
    (A dst₁ dst₂ : Nat → α) (j : Nat) (hj : j < rows * cols) :
    iree_hal_tt_unpack_from_tiles (iree_hal_tt_pack_to_tiles A dst₁ rows cols)
      dst₂ rows cols j = A j ∧
    iree_hal_tt_pack_to_tiles (iree_hal_tt_unpack_from_tiles A dst₁ rows cols)
      dst₂ rows cols j = A j := by
  constructor
  · obtain ⟨q, hqb, rfl⟩ := rowMajorIdx_surj hr32 hc32 hc0 j hj
    rw [unpack_at_rowMajorIdx _ _ rows cols hr32 hc32 hr0 hc0 q hqb,
      pack_at_tiledIdx A dst₁ rows cols hr32 hc32 hr0 hc0 q hqb]
  · have hj' : j < rows / 32 * (cols / 32) * 1024 := by
      rw [← dims_factor hr32 hc32]; exact hj
    have hTC : 0 < cols / 32 := by omega
    obtain ⟨q, hqb, rfl⟩ := tiledIdx_surj hTC j hj'
    rw [pack_at_tiledIdx _ _ rows cols hr32 hc32 hr0 hc0 q hqb,
      unpack_at_rowMajorIdx A dst₁ rows cols hr32 hc32 hr0 hc0 q hqb]

/-- Witness for C1 at `rows = cols = 32`, `A = id`, `j = 33`. -/
theorem tile_pack_unpack_roundtrip_witness :
    iree_hal_tt_unpack_from_tiles
      (iree_hal_tt_pack_to_tiles (fun i => i) (fun _ => 0) 32 32)
      (fun _ => 0) 32 32 33 = 33 ∧
    iree_hal_tt_pack_to_tiles
      (iree_hal_tt_unpack_from_tiles (fun i => i) (fun _ => 0) 32 32)
      (fun _ => 0) 32 32 33 = 33 :=
  tile_pack_unpack_roundtrip 32 32 (by decide) (by decide) (by decide) (by decide)
    (fun i => i) (fun _ => 0) (fun _ => 0) 33 (by decide)

/-- C2: `pack` realizes exactly the specified index permutation
`dst[(tr*(cols/32)+tc)*1024 + r*32 + c] = src[(tr*32+r)*cols + (tc*32+c)]`
for all in-range tile-grid and intra-tile coordinates; `unpack` performs the
index-role-swapped inverse mapping; and for `rows = cols = 64` the four
tile-base samples `pack(A)[0] = A[0]`, `pack(A)[1024] = A[32]`,
`pack(A)[2048] = A[64*32]`, `pack(A)[3072] = A[64*32+32]` hold. -/
theorem pack_index_permutation {α : Type} (rows cols : Nat)
    (hr32 : rows % 32 = 0) (hc32 : cols % 32 = 0) (hr0 : 0 < rows) (hc0 : 0 < cols)
    (A dst : Nat → α) (tr tc r c : Nat)
    (htr : tr < rows / 32) (htc : tc < cols / 32) (hr : r < 32) (hc : c < 32) :
    iree_hal_tt_pack_to_tiles A dst rows cols
        ((tr * (cols / 32) + tc) * 1024 + r * 32 + c) =
      A ((tr * 32 + r) * cols + (tc * 32 + c)) ∧
    iree_hal_tt_unpack_from_tiles A dst rows cols
        ((tr * 32 + r) * cols + (tc * 32 + c)) =
      A ((tr * (cols / 32) + tc) * 1024 + r * 32 + c) ∧
    (∀ B dst' : Nat → α,
      iree_hal_tt_pack_to_tiles B dst' 64 64 0 = B 0 ∧
      iree_hal_tt_pack_to_tiles B dst' 64 64 1024 = B 32 ∧
      iree_hal_tt_pack_to_tiles B dst' 64 64 2048 = B (64 * 32) ∧
      iree_hal_tt_pack_to_tiles B dst' 64 64 3072 = B (64 * 32 + 32)) := by
  refine ⟨?_, ?_, ?_⟩
  · exact pack_at_tiledIdx A dst rows cols hr32 hc32 hr0 hc0 (tr, tc, r, c)
      ⟨htr, htc, hr, hc⟩
  · exact unpack_at_rowMajorIdx A dst rows cols hr32 hc32 hr0 hc0 (tr, tc, r, c)
      ⟨htr, htc, hr, hc⟩
  · intro B dst'
    refine ⟨?_, ?_, ?_, ?_⟩
    · exact pack_at_tiledIdx B dst' 64 64 (by decide) (by decide) (by decide) (by decide)
        (0, 0, 0, 0) ⟨by decide, by decide, by decide, by decide⟩
    · exact pack_at_tiledIdx B dst' 64 64 (by decide) (by decide) (by decide) (by decide)
        (0, 1, 0, 0) ⟨by decide, by decide, by decide, by decide⟩
    · exact pack_at_tiledIdx B dst' 64 64 (by decide) (by decide) (by decide) (by decide)
        (1, 0, 0, 0) ⟨by decide, by decide, by decide, by decide⟩
    · exact pack_at_tiledIdx B dst' 64 64 (by decide) (by decide) (by decide) (by decide)
        (1, 1, 0, 0) ⟨by decide, by decide, by decide, by decide⟩

/-- Witness for C2 at `rows = cols = 64`, `A = id`, coordinates
`(tr, tc, r, c) = (1, 1, 2, 3)`. -/
theorem pack_index_permutation_witness :
    iree_hal_tt_pack_to_tiles (fun i => i) (fun _ => 0) 64 64
        ((1 * (64 / 32) + 1) * 1024 + 2 * 32 + 3) =
      (1 * 32 + 2) * 64 + (1 * 32 + 3) ∧
    iree_hal_tt_unpack_from_tiles (fun i => i) (fun _ => 0) 64 64
        ((1 * 32 + 2) * 64 + (1 * 32 + 3)) =
      (1 * (64 / 32) + 1) * 1024 + 2 * 32 + 3 ∧
    (∀ B dst' : Nat → Nat,
      iree_hal_tt_pack_to_tiles B dst' 64 64 0 = B 0 ∧
      iree_hal_tt_pack_to_tiles B dst' 64 64 1024 = B 32 ∧
      iree_hal_tt_pack_to_tiles B dst' 64 64 2048 = B (64 * 32) ∧
      iree_hal_tt_pack_to_tiles B dst' 64 64 3072 = B (64 * 32 + 32)) :=
  pack_index_permutation 64 64 (by decide) (by decide) (by decide) (by decide)
    (fun i => i) (fun _ => 0) 1 1 2 3 (by decide) (by decide) (by decide) (by decide)


theorem ttAllocatorStep_allocate (s : TTAllocatorState) (size : Nat) :
    ttAllocatorStep s (.allocate size) =
      { stats := { s.stats with device_bytes_allocated :=
                     s.stats.device_bytes_allocated + round32 size },
        live := { allocation_size := round32 size,
                  rows := (inferShape (round32 size)).rows,
                  cols := (inferShape (round32 size)).cols,
                  uses_tile_layout := (inferShape (round32 size)).uses_tile_layout }
                :: s.live } := rfl

theorem ttAllocatorStep_deallocate (s : TTAllocatorState) (b : TTBuffer) :
    ttAllocatorStep s (.deallocate b) =
      { stats := { s.stats with device_bytes_freed :=
                     s.stats.device_bytes_freed + b.allocation_size },
        live := s.live.erase b } := rfl

theorem sum_map_erase (f : TTBuffer → Nat) (b : TTBuffer) :
    ∀ l : List TTBuffer, b ∈ l → ((l.erase b).map f).sum + f b = (l.map f).sum := by
  intro l
  induction l with
  | nil => intro h; exact absurd h (List.not_mem_nil _)
  | cons a rest ih =>
      intro hmem
      by_cases hab : a = b
      · subst hab
        rw [List.erase_cons_head]
        simp only [List.map_cons, List.sum_cons]
        omega
      · have hb : b ∈ rest := by
          rcases List.mem_cons.mp hmem with h | h
          · exact absurd h.symm hab
          · exact h
        rw [List.erase_cons_tail]
        · simp only [List.map_cons, List.sum_cons]
          rw [← ih hb]
          omega
        · simp only [beq_iff_eq]
          exact hab

theorem ttAllocatorRun_append (t t' : List TTAllocOp) :
    ∀ s : TTAllocatorState,
      ttAllocatorRun s (t ++ t') = ttAllocatorRun (ttAllocatorRun s t) t' := by
  induction t with
  | nil => intro s; rfl
  | cons op ops ih => intro s; exact ih (ttAllocatorStep s op)

theorem statsLe_step (s : TTAllocatorState) (op : TTAllocOp) :
    statsLe s.stats (ttAllocatorStep s op).stats := by
  cases op with
  | allocate size =>
      rw [ttAllocatorStep_allocate]
      exact ⟨Nat.le_refl _, Nat.le_refl _, Nat.le_add_right _ _, Nat.le_refl _⟩
  | deallocate b =>
      rw [ttAllocatorStep_deallocate]
      exact ⟨Nat.le_refl _, Nat.le_refl _, Nat.le_refl _, Nat.le_add_right _ _⟩

theorem statsLe_run (t : List TTAllocOp) :
    ∀ s : TTAllocatorState, statsLe s.stats (ttAllocatorRun s t).stats := by
  induction t with
  | nil => intro s; exact ⟨Nat.le_refl _, Nat.le_refl _, Nat.le_refl _, Nat.le_refl _⟩
  | cons op ops ih =>
      intro s
      have h1 := statsLe_step s op
      have h2 := ih (ttAllocatorStep s op)
      obtain ⟨a1, a2, a3, a4⟩ := h1
      obtain ⟨b1, b2, b3, b4⟩ := h2
      exact ⟨Nat.le_trans a1 b1, Nat.le_trans a2 b2, Nat.le_trans a3 b3, Nat.le_trans a4 b4⟩

theorem run_statistics_invariant (t : List TTAllocOp) :
    ∀ s : TTAllocatorState, ttTraceValid s t = true →
      (ttAllocatorRun s t).stats.device_bytes_allocated =
        s.stats.device_bytes_allocated + traceAllocatedBytes t ∧
      (ttAllocatorRun s t).stats.device_bytes_freed + liveBytes (ttAllocatorRun s t) =
        s.stats.device_bytes_freed + liveBytes s + traceAllocatedBytes t ∧
      (ttAllocatorRun s t).stats.host_bytes_allocated = s.stats.host_bytes_allocated ∧
      (ttAllocatorRun s t).stats.host_bytes_freed = s.stats.host_bytes_freed := by
  induction t with
  | nil =>
      intro s _
      simp [ttAllocatorRun, traceAllocatedBytes]
  | cons op ops ih =>
      intro s hvalid
      cases op with
      | allocate size =>
          have hv : ttTraceValid (ttAllocatorStep s (.allocate size)) ops = true := hvalid
          obtain ⟨e1, e2, e3, e4⟩ := ih _ hv
          simp only [ttAllocatorRun]
          refine ⟨?_, ?_, ?_, ?_⟩
          · rw [e1, ttAllocatorStep_allocate]
            simp only [traceAllocatedBytes]
            omega
          · rw [e2, ttAllocatorStep_allocate]
            simp only [liveBytes, List.map_cons, List.sum_cons, traceAllocatedBytes]
            omega
          · rw [e3, ttAllocatorStep_allocate]
          · rw [e4, ttAllocatorStep_allocate]
      | deallocate b =>
          have hsplit : b ∈ s.live ∧ ttTraceValid (ttAllocatorStep s (.deallocate b)) ops = true := by
            have h := hvalid
            simp only [ttTraceValid, Bool.and_eq_true, decide_eq_true_eq] at h
            exact h
          obtain ⟨e1, e2, e3, e4⟩ := ih _ hsplit.2
          simp only [ttAllocatorRun]
          refine ⟨?_, ?_, ?_, ?_⟩
          · rw [e1, ttAllocatorStep_deallocate]
            simp only [traceAllocatedBytes]
          · rw [e2, ttAllocatorStep_deallocate]
            simp only [liveBytes, traceAllocatedBytes]
            have herase := sum_map_erase TTBuffer.allocation_size b s.live hsplit.1
            simp only [liveBytes] at herase ⊢
            omega
          · rw [e3, ttAllocatorStep_deallocate]
          · rw [e4, ttAllocatorStep_deallocate]

/-! ### Claims about shape inference and buffer creation -/

theorem inferShape_always_tiled (n : Nat) :
    (inferShape n).rows % 32 = 0 ∧ (inferShape n).cols % 32 = 0 ∧
    (inferShape n).uses_tile_layout = true := by
  by_cases h : n / 4 = 1024
  · simp [inferShape, h]
  · have hm : (Nat.sqrt (n / 4) + 31) / 32 * 32 % 32 = 0 := Nat.mul_mod_left _ _
    simp [inferShape, h, hm]

/-- C5: at construction from `allocation_size` with float32 elements
(`element_count = allocation_size / 4`): if `element_count = 1024` then
`rows = cols = 32`; otherwise `rows` and `cols` both equal
`⌊sqrt(element_count)⌋` rounded up to the next multiple of 32 (stated as:
a multiple of 32, at least the square root, and least such); and
`uses_tile_layout` holds iff both dimensions are multiples of 32. -/
theorem shape_inference_spec (allocation_size : Nat) :
    (allocation_size / 4 = 1024 →
      (inferShape allocation_size).rows = 32 ∧ (inferShape allocation_size).cols = 32) ∧
    (allocation_size / 4 ≠ 1024 →
      (inferShape allocation_size).rows % 32 = 0 ∧
      Nat.sqrt (allocation_size / 4) ≤ (inferShape allocation_size).rows ∧
      (∀ m : Nat, m % 32 = 0 → Nat.sqrt (allocation_size / 4) ≤ m →
        (inferShape allocation_size).rows ≤ m) ∧
      (inferShape allocation_size).cols = (inferShape allocation_size).rows) ∧
    ((inferShape allocation_size).uses_tile_layout = true ↔
      (inferShape allocation_size).rows % 32 = 0 ∧
      (inferShape allocation_size).cols % 32 = 0) := by
  refine ⟨?_, ?_, ?_⟩
  · intro h
    simp [inferShape, h]
  · intro h
    refine ⟨?_, ?_, ?_, ?_⟩
    · exact (inferShape_always_tiled allocation_size).1
    · simp only [inferShape, h, if_false]
      omega
    · intro m hm hle
      simp only [inferShape, h, if_false]
      omega
    · simp [inferShape, h]
  · obtain ⟨h1, h2, h3⟩ := inferShape_always_tiled allocation_size
    rw [h3]
    simp [h1, h2]

/-- Witness for C5 at `allocation_size = 4096` (1024 elements) and at
`allocation_size = 4032` (1008 elements, `⌊sqrt 1008⌋ = 31`, rounded to 32). -/
theorem shape_inference_spec_witness :
    ((inferShape 4096).rows = 32 ∧ (inferShape 4096).cols = 32) ∧
    Nat.sqrt (4032 / 4) ≤ (inferShape 4032).rows ∧
    (inferShape 4032).rows % 32 = 0 :=
  ⟨(shape_inference_spec 4096).1 (by decide),
   ((shape_inference_spec 4032).2.1 (by decide)).2.1,
   ((shape_inference_spec 4032).2.1 (by decide)).1⟩

/-- C10: every buffer this core successfully constructs — whatever the
allocation size, including element counts that are neither 1024 nor perfect
squares — has `rows` and `cols` multiples of 32 and `uses_tile_layout`
true; consequently the verbatim (non-tiled) copy branches of `map_range`
and `unmap_range` never run for such a buffer. -/
theorem created_buffer_always_tiled (env : TTEnv) (allocation_size : Nat) (b : TTBuffer)
    (hb : (iree_hal_tt_buffer_create env allocation_size).out_buffer = some b) :
    b.rows % 32 = 0 ∧ b.cols % 32 = 0 ∧ b.uses_tile_layout = true ∧
    (∀ (env' : TTEnv) (access_read : Bool) (len : Nat),
      (iree_hal_tt_buffer_map_range env' b access_read len).took_verbatim_branch = false) ∧
    (∀ (env' : TTEnv) (staging : Nat → Nat),
      (iree_hal_tt_buffer_unmap_range env' b staging).took_verbatim_branch = false) := by
  obtain ⟨hr, hc, ht⟩ := inferShape_always_tiled allocation_size
  have hbval : b = { allocation_size := allocation_size,
                     rows := (inferShape allocation_size).rows,
                     cols := (inferShape allocation_size).cols,
                     uses_tile_layout := (inferShape allocation_size).uses_tile_layout } := by
    obtain ⟨sm, dp, cb, rest⟩ := env
    cases sm <;> cases dp <;> cases cb <;>
      simp_all [iree_hal_tt_buffer_create]
  subst hbval
  refine ⟨hr, hc, ht, ?_, ?_⟩
  · intro env' access_read len
    obtain ⟨_, _, _, sm, tm, ro, _, dd, sj, tj⟩ := env'
    cases sm <;> cases tm <;> cases ro <;> cases access_read <;>
      simp [iree_hal_tt_buffer_map_range, ht]
  · intro env' staging
    obtain ⟨_, _, _, sm, tm, ro, wo, dd, sj, tj⟩ := env'
    cases tm <;> simp [iree_hal_tt_buffer_unmap_range, ht]

/-- Witness for C10: the buffer created from a 4096-byte allocation uses
the tile layout and never takes the verbatim branches of `map_range` and
`unmap_range`. -/
theorem created_buffer_always_tiled_witness :
    (iree_hal_tt_buffer_map_range ttOkEnv
        { allocation_size := 4096, rows := 32, cols := 32, uses_tile_layout := true }
        true 4096).took_verbatim_branch = false ∧
    (iree_hal_tt_buffer_unmap_range ttOkEnv
        { allocation_size := 4096, rows := 32, cols := 32, uses_tile_layout := true }
        (fun _ => 0)).took_verbatim_branch = false :=
  ⟨(created_buffer_always_tiled ttOkEnv 4096
      { allocation_size := 4096, rows := 32, cols := 32, uses_tile_layout := true }
      rfl).2.2.2.1 ttOkEnv true 4096,
   (created_buffer_always_tiled ttOkEnv 4096
      { allocation_size := 4096, rows := 32, cols := 32, uses_tile_layout := true }
      rfl).2.2.2.2 ttOkEnv (fun _ => 0)⟩

/-! ### Claims about the allocator -/

/-- C6: over any sequence of successful `allocate_buffer(size_i)` calls and
`deallocate_buffer` calls on buffers this allocator allocated,
`device_bytes_allocated` equals the sum of the sizes rounded up to the next
multiple of 32, `device_bytes_freed` never exceeds it, all four counters
start at zero, and every counter is monotonically non-decreasing under any
further operations (they are never reset). -/
theorem allocator_statistics_law (t : List TTAllocOp)
    (hvalid : ttTraceValid ttAllocatorInit t = true) :
    (ttAllocatorRun ttAllocatorInit t).stats.device_bytes_allocated =
      traceAllocatedBytes t ∧
    (ttAllocatorRun ttAllocatorInit t).stats.device_bytes_freed ≤
      (ttAllocatorRun ttAllocatorInit t).stats.device_bytes_allocated ∧
    ttAllocatorInit.stats = { host_bytes_allocated := 0, host_bytes_freed := 0,
                              device_bytes_allocated := 0, device_bytes_freed := 0 } ∧
    (∀ rest : List TTAllocOp,
      statsLe (ttAllocatorRun ttAllocatorInit t).stats
        (ttAllocatorRun ttAllocatorInit (t ++ rest)).stats) := by
  obtain ⟨e1, e2, e3, e4⟩ := run_statistics_invariant t ttAllocatorInit hvalid
  have h0a : ttAllocatorInit.stats.device_bytes_allocated = 0 := rfl
  have h0f : ttAllocatorInit.stats.device_bytes_freed = 0 := rfl
  have h0l : liveBytes ttAllocatorInit = 0 := rfl
  refine ⟨?_, ?_, rfl, ?_⟩
  · omega
  · omega
  · intro rest
    rw [ttAllocatorRun_append]
    exact statsLe_run rest _

/-- Witness for C6: the trace `allocate 4000; allocate 4096;
deallocate(the 4096-byte buffer)` gives `device_bytes_allocated = 4032 +
4096` and keeps the counters monotone under a further allocation. -/
theorem allocator_statistics_law_witness :
    (ttAllocatorRun ttAllocatorInit
        [TTAllocOp.allocate 4096,
         TTAllocOp.deallocate
           { allocation_size := 4096, rows := 32, cols := 32, uses_tile_layout := true }]
      ).stats.device_bytes_allocated =
      traceAllocatedBytes
        [TTAllocOp.allocate 4096,
         TTAllocOp.deallocate
           { allocation_size := 4096, rows := 32, cols := 32, uses_tile_layout := true }] ∧
    (ttAllocatorRun ttAllocatorInit
        [TTAllocOp.allocate 4096,
         TTAllocOp.deallocate
           { allocation_size := 4096, rows := 32, cols := 32, uses_tile_layout := true }]
      ).stats.device_bytes_freed ≤
    (ttAllocatorRun ttAllocatorInit
        [TTAllocOp.allocate 4096,
         TTAllocOp.deallocate
           { allocation_size := 4096, rows := 32, cols := 32, uses_tile_layout := true }]
      ).stats.device_bytes_allocated ∧
    statsLe
      (ttAllocatorRun ttAllocatorInit
        [TTAllocOp.allocate 4096,
         TTAllocOp.deallocate
           { allocation_size := 4096, rows := 32, cols := 32, uses_tile_layout := true }]
      ).stats
      (ttAllocatorRun ttAllocatorInit
        ([TTAllocOp.allocate 4096,
          TTAllocOp.deallocate
            { allocation_size := 4096, rows := 32, cols := 32, uses_tile_layout := true }]
          ++ [TTAllocOp.allocate 64])).stats :=
  ⟨(allocator_statistics_law _ (by decide)).1,
   (allocator_statistics_law _ (by decide)).2.1,
   (allocator_statistics_law _ (by decide)).2.2.2 [TTAllocOp.allocate 64]⟩

/-- C7 counterexample: a zero requested size is not rejected; with the
struct allocation, device and backing storage all succeeding,
`allocate_buffer(0)` returns OK (and a buffer), never INVALID_ARGUMENT —
no size validation exists anywhere on the allocation path. -/
theorem allocate_zero_size_not_invalid_argument :
    (iree_hal_tt_allocator_allocate_buffer ttOkEnv initStatistics 0).1.status =
      TTStatus.ok ∧
    (iree_hal_tt_allocator_allocate_buffer ttOkEnv initStatistics 0).1.status ≠
      TTStatus.invalidArgument := by
  constructor
  · rfl
  · intro h
    exact absurd h (by decide)

/-- C7 (amended): `allocate_buffer` rounds the requested size up to the
next multiple of 32 before materializing backing storage; it fails with
RESOURCE_EXHAUSTED exactly on struct-allocation or backing-storage failure
and with UNAVAILABLE exactly when no hardware device is open; it never
returns INVALID_ARGUMENT (a zero size is not validated); and on any failure
no buffer is returned and every host block obtained inside the call has
been freed. -/
theorem allocate_buffer_error_contract (env : TTEnv)
    (stats : AllocatorStatistics) (size : Nat) :
    (round32 size % 32 = 0 ∧ size ≤ round32 size ∧ round32 size < size + 32) ∧
    ((iree_hal_tt_allocator_allocate_buffer env stats size).1.status =
        TTStatus.resourceExhausted ↔
      env.struct_malloc_ok = false ∨
        (env.device_present = true ∧ env.create_buffer_ok = false)) ∧
    ((iree_hal_tt_allocator_allocate_buffer env stats size).1.status =
        TTStatus.unavailable ↔
      env.struct_malloc_ok = true ∧ env.device_present = false) ∧
    (iree_hal_tt_allocator_allocate_buffer env stats size).1.status ≠
      TTStatus.invalidArgument ∧
    ((iree_hal_tt_allocator_allocate_buffer env stats size).1.status = TTStatus.ok →
      ∃ b : TTBuffer,
        (iree_hal_tt_allocator_allocate_buffer env stats size).1.out_buffer = some b ∧
        b.allocation_size = round32 size) ∧
    ((iree_hal_tt_allocator_allocate_buffer env stats size).1.status ≠ TTStatus.ok →
      (iree_hal_tt_allocator_allocate_buffer env stats size).1.out_buffer = Option.none ∧
      (iree_hal_tt_allocator_allocate_buffer env stats size).1.unowned_host_blocks = 0) := by
  refine ⟨⟨Nat.mul_mod_left _ _, by simp only [round32]; omega,
    by simp only [round32]; omega⟩, ?_⟩
  obtain ⟨sm, dp, cb, rest⟩ := env
  cases sm <;> cases dp <;> cases cb <;>
    simp [iree_hal_tt_allocator_allocate_buffer, iree_hal_tt_buffer_create]

/-- Witness for C7 (amended) at `ttOkEnv`, fresh statistics, size 4000:
the rounded size is a multiple of 32 at least 4000, and the call does not
return INVALID_ARGUMENT. -/
theorem allocate_buffer_error_contract_witness :
    (round32 4000 % 32 = 0 ∧ 4000 ≤ round32 4000 ∧ round32 4000 < 4000 + 32) ∧
    (iree_hal_tt_allocator_allocate_buffer ttOkEnv initStatistics 4000).1.status ≠
      TTStatus.invalidArgument :=
  ⟨(allocate_buffer_error_contract ttOkEnv initStatistics 4000).1,
   (allocate_buffer_error_contract ttOkEnv initStatistics 4000).2.2.2.1⟩

/-- C8 counterexample: the heap entry actually written by
`query_memory_heaps` carries only `TRANSFER | DISPATCH_STORAGE`; the
dispatch-indirect-parameters and dispatch-uniform-read bits the claim lists
are absent. -/
theorem query_memory_heaps_missing_usage_bits :
    (iree_hal_tt_allocator_query_memory_heaps 1).2 = [ttHeapEntry] ∧
    ttHeapEntry.allowed_usage.dispatch_indirect_parameters = false ∧
    ttHeapEntry.allowed_usage.dispatch_uniform_read = false ∧
    ttHeapEntry.allowed_usage ≠
      { transfer := true, dispatch_storage := true,
        dispatch_indirect_parameters := true, dispatch_uniform_read := true } := by
  refine ⟨rfl, rfl, rfl, ?_⟩
  intro h
  exact absurd h (by decide)

/-- C8 (amended): `query_memory_heaps` always reports count 1; with
capacity 0 it writes nothing; with capacity ≥ 1 it writes exactly one heap:
device-local, max allocation 28 GiB, minimum alignment 32 bytes, and
allowed usage transfer ∪ dispatch-storage (without the
dispatch-indirect-parameters and dispatch-uniform-read bits). -/
theorem query_memory_heaps_contract (capacity : Nat) :
    (iree_hal_tt_allocator_query_memory_heaps capacity).1 = 1 ∧
    (capacity = 0 → (iree_hal_tt_allocator_query_memory_heaps capacity).2 = []) ∧
    (1 ≤ capacity → (iree_hal_tt_allocator_query_memory_heaps capacity).2 =
      [{ device_local := true,
         allowed_usage := { transfer := true, dispatch_storage := true,
                            dispatch_indirect_parameters := false,
                            dispatch_uniform_read := false },
         max_allocation_size := 28 * 1024 * 1024 * 1024,
         min_alignment := 32 }]) := by
  refine ⟨rfl, ?_, ?_⟩
  · intro h
    subst h
    rfl
  · intro h
    simp only [iree_hal_tt_allocator_query_memory_heaps, if_pos h]
    rfl

/-- Witness for C8 (amended) at capacities 0 and 1. -/
theorem query_memory_heaps_contract_witness :
    (iree_hal_tt_allocator_query_memory_heaps 0).2 = [] ∧
    (iree_hal_tt_allocator_query_memory_heaps 1).2 =
      [{ device_local := true,
         allowed_usage := { transfer := true, dispatch_storage := true,
                            dispatch_indirect_parameters := false,
                            dispatch_uniform_read := false },
         max_allocation_size := 28 * 1024 * 1024 * 1024,
         min_alignment := 32 }] :=
  ⟨(query_memory_heaps_contract 0).2.1 rfl,
   (query_memory_heaps_contract 1).2.2 (by decide)⟩

/-- C9: `query_buffer_compatibility` rewrites the in/out size to the least
multiple of 32 no smaller than the input (leaving already-aligned sizes
unchanged), including on NONE results, and returns NONE iff the requested
memory type is not device-local, otherwise exactly ALLOCATABLE. -/
theorem query_buffer_compatibility_contract (params : TTBufferParams) (size : Nat) :
    ((iree_hal_tt_allocator_query_buffer_compatibility params size).2 % 32 = 0 ∧
     size ≤ (iree_hal_tt_allocator_query_buffer_compatibility params size).2 ∧
     (∀ m : Nat, m % 32 = 0 → size ≤ m →
       (iree_hal_tt_allocator_query_buffer_compatibility params size).2 ≤ m) ∧
     (size % 32 = 0 →
       (iree_hal_tt_allocator_query_buffer_compatibility params size).2 = size)) ∧
    ((iree_hal_tt_allocator_query_buffer_compatibility params size).1 =
        TTCompatibility.none ↔ params.device_local = false) ∧
    (params.device_local = true →
      (iree_hal_tt_allocator_query_buffer_compatibility params size).1 =
        TTCompatibility.allocatable) := by
  obtain ⟨dl⟩ := params
  have hsize : (iree_hal_tt_allocator_query_buffer_compatibility ⟨dl⟩ size).2 =
      if size % 32 ≠ 0 then (size + 31) / 32 * 32 else size := by
    cases dl <;> rfl
  refine ⟨⟨?_, ?_, ?_, ?_⟩, ?_, ?_⟩
  · rw [hsize]
    by_cases h : size % 32 = 0 <;> simp [h]
  · rw [hsize]
    by_cases h : size % 32 = 0
    · simp [h]
    · simp [h]
      omega
  · intro m hm hle
    rw [hsize]
    by_cases h : size % 32 = 0
    · simp [h]
      omega
    · simp [h]
      omega
  · intro h
    rw [hsize]
    simp [h]
  · cases dl <;>
      simp [iree_hal_tt_allocator_query_buffer_compatibility]
  · intro h
    subst h
    rfl

/-- Witness for C9 at a non-device-local request of size 40 and a
device-local request of size 64. -/
theorem query_buffer_compatibility_contract_witness :
    (40 ≤ (iree_hal_tt_allocator_query_buffer_compatibility ⟨false⟩ 40).2 ∧
     (iree_hal_tt_allocator_query_buffer_compatibility ⟨false⟩ 40).2 % 32 = 0) ∧
    (iree_hal_tt_allocator_query_buffer_compatibility ⟨false⟩ 40).1 =
      TTCompatibility.none ∧
    (iree_hal_tt_allocator_query_buffer_compatibility ⟨true⟩ 64).1 =
      TTCompatibility.allocatable ∧
    (iree_hal_tt_allocator_query_buffer_compatibility ⟨true⟩ 64).2 = 64 :=
  ⟨⟨(query_buffer_compatibility_contract ⟨false⟩ 40).1.2.1,
    (query_buffer_compatibility_contract ⟨false⟩ 40).1.1⟩,
   (query_buffer_compatibility_contract ⟨false⟩ 40).2.1.mpr rfl,
   (query_buffer_compatibility_contract ⟨true⟩ 64).2.2 rfl,
   (query_buffer_compatibility_contract ⟨true⟩ 64).1.2.2.2 (by decide)⟩

/-! ### Claims about the mapping protocol -/

/-- C3 counterexample: the pack-and-write on the tile-layout path is not
unconditional: when the `malloc` of the temporary tile-ordered buffer
fails (`tt_buffer.cc` lines 281–290, the `if (tiled_data)` guard),
`unmap_range` on a tile-layout buffer silently issues no device write at
all — yet still returns OK, frees the staging region and clears the
mapping. -/
theorem unmap_range_no_write_on_tiled_malloc_failure :
    ({ allocation_size := 4096, rows := 32, cols := 32,
       uses_tile_layout := true } : TTBuffer).uses_tile_layout = true ∧
    (iree_hal_tt_buffer_unmap_range { ttOkEnv with tiled_malloc_ok := false }
        { allocation_size := 4096, rows := 32, cols := 32, uses_tile_layout := true }
        (fun i => i)).issued_write = Option.none ∧
    (iree_hal_tt_buffer_unmap_range { ttOkEnv with tiled_malloc_ok := false }
        { allocation_size := 4096, rows := 32, cols := 32, uses_tile_layout := true }
        (fun i => i)).status = TTStatus.ok :=
  ⟨rfl, rfl, rfl⟩

/-- C3 (amended): `unmap_range` always returns OK to its caller, always
frees the staging region, and always resets the mapping to the empty span,
for every hardware outcome (a throwing `EnqueueWriteBuffer` is swallowed:
the result does not depend on `write_ok` at all); on the tile-layout path,
when the temporary tile buffer allocation succeeds the payload written to
the device is `pack` of the staging contents, and when it fails the pack
and write are silently skipped and no write is issued; without tile layout
the staging contents are written verbatim. -/
theorem unmap_range_contract (env : TTEnv) (b : TTBuffer) (staging : Nat → Nat) :
    (iree_hal_tt_buffer_unmap_range env b staging).status = TTStatus.ok ∧
    (iree_hal_tt_buffer_unmap_range env b staging).staging_freed = true ∧
    (iree_hal_tt_buffer_unmap_range env b staging).contents_after = Option.none ∧
    (∀ wr : Bool,
      iree_hal_tt_buffer_unmap_range { env with write_ok := wr } b staging =
        iree_hal_tt_buffer_unmap_range env b staging) ∧
    (b.uses_tile_layout = true → env.tiled_malloc_ok = true →
      (iree_hal_tt_buffer_unmap_range env b staging).issued_write =
        some (iree_hal_tt_pack_to_tiles staging env.tiled_junk b.rows b.cols)) ∧
    (b.uses_tile_layout = false →
      (iree_hal_tt_buffer_unmap_range env b staging).issued_write = some staging) ∧
    (b.uses_tile_layout = true → env.tiled_malloc_ok = false →
      (iree_hal_tt_buffer_unmap_range env b staging).issued_write = Option.none) := by
  refine ⟨?_, ?_, ?_, fun wr => rfl, ?_, ?_, ?_⟩
  · by_cases ht : b.uses_tile_layout <;> by_cases hm : env.tiled_malloc_ok <;>
      simp [iree_hal_tt_buffer_unmap_range, ht, hm]
  · by_cases ht : b.uses_tile_layout <;> by_cases hm : env.tiled_malloc_ok <;>
      simp [iree_hal_tt_buffer_unmap_range, ht, hm]
  · by_cases ht : b.uses_tile_layout <;> by_cases hm : env.tiled_malloc_ok <;>
      simp [iree_hal_tt_buffer_unmap_range, ht, hm]
  · intro ht hm
    simp [iree_hal_tt_buffer_unmap_range, ht, hm]
  · intro ht
    simp [iree_hal_tt_buffer_unmap_range, ht]
  · intro ht hm
    simp [iree_hal_tt_buffer_unmap_range, ht, hm]

/-- Witness for C3 (amended): a failed device write (`write_ok = false`) still
yields OK, a freed staging region, an empty mapping, and the packed
payload, for the 32×32 tiled buffer. -/
theorem unmap_range_contract_witness :
    (iree_hal_tt_buffer_unmap_range { ttOkEnv with write_ok := false }
        { allocation_size := 4096, rows := 32, cols := 32, uses_tile_layout := true }
        (fun i => i + 1)).status = TTStatus.ok ∧
    (iree_hal_tt_buffer_unmap_range { ttOkEnv with write_ok := false }
        { allocation_size := 4096, rows := 32, cols := 32, uses_tile_layout := true }
        (fun i => i + 1)).staging_freed = true ∧
    (iree_hal_tt_buffer_unmap_range { ttOkEnv with write_ok := false }
        { allocation_size := 4096, rows := 32, cols := 32, uses_tile_layout := true }
        (fun i => i + 1)).contents_after = Option.none ∧
    (iree_hal_tt_buffer_unmap_range { ttOkEnv with write_ok := false }
        { allocation_size := 4096, rows := 32, cols := 32, uses_tile_layout := true }
        (fun i => i + 1)).issued_write =
      some (iree_hal_tt_pack_to_tiles (fun i => i + 1) (fun _ => 0) 32 32) :=
  ⟨(unmap_range_contract { ttOkEnv with write_ok := false }
      { allocation_size := 4096, rows := 32, cols := 32, uses_tile_layout := true }
      (fun i => i + 1)).1,
   (unmap_range_contract { ttOkEnv with write_ok := false }
      { allocation_size := 4096, rows := 32, cols := 32, uses_tile_layout := true }
      (fun i => i + 1)).2.1,
   (unmap_range_contract { ttOkEnv with write_ok := false }
      { allocation_size := 4096, rows := 32, cols := 32, uses_tile_layout := true }
      (fun i => i + 1)).2.2.1,
   (unmap_range_contract { ttOkEnv with write_ok := false }
      { allocation_size := 4096, rows := 32, cols := 32, uses_tile_layout := true }
      (fun i => i + 1)).2.2.2.2.1 rfl rfl⟩

/-- C4 counterexample: with the staging allocation succeeding but the
temporary tiled read-back allocation failing, a READ mapping fails with
RESOURCE_EXHAUSTED — so the claim's "fails with RESOURCE_EXHAUSTED exactly
when the host staging allocation fails" is false. -/
theorem map_range_fails_without_staging_failure :
    (iree_hal_tt_buffer_map_range { ttOkEnv with tiled_malloc_ok := false }
        { allocation_size := 4096, rows := 32, cols := 32, uses_tile_layout := true }
        true 4096).status = TTStatus.resourceExhausted ∧
    ({ ttOkEnv with tiled_malloc_ok := false } : TTEnv).staging_malloc_ok = true :=
  ⟨rfl, rfl⟩

/-- C4 (amended): `map_range` fails with RESOURCE_EXHAUSTED exactly when
the staging allocation fails or, on a READ access, when the temporary
tiled read-back buffer allocation fails; every other outcome is OK.  With
READ access and both allocations succeeding, the full backing allocation
is fetched and, under tile layout, `unpack`ed into staging (copied
verbatim otherwise); if the hardware read-back fails, the staging region
is zero-filled for the full requested length and the call still returns
OK. -/
theorem map_range_contract (env : TTEnv) (b : TTBuffer)
    (access_read : Bool) (len : Nat) :
    ((iree_hal_tt_buffer_map_range env b access_read len).status =
        TTStatus.resourceExhausted ↔
      env.staging_malloc_ok = false ∨
        (access_read = true ∧ env.tiled_malloc_ok = false)) ∧
    ((iree_hal_tt_buffer_map_range env b access_read len).status =
        TTStatus.resourceExhausted ∨
     (iree_hal_tt_buffer_map_range env b access_read len).status = TTStatus.ok) ∧
    (env.staging_malloc_ok = true → env.tiled_malloc_ok = true →
      env.read_ok = true → b.uses_tile_layout = true →
      (iree_hal_tt_buffer_map_range env b true len).contents =
        some (iree_hal_tt_unpack_from_tiles env.device_data env.staging_junk
          b.rows b.cols)) ∧
    (env.staging_malloc_ok = true → env.tiled_malloc_ok = true →
      env.read_ok = true → b.uses_tile_layout = false →
      (iree_hal_tt_buffer_map_range env b true len).contents =
        some (fun i => if i < len / 4 then env.device_data i else env.staging_junk i)) ∧
    (env.staging_malloc_ok = true → env.tiled_malloc_ok = true →
      env.read_ok = false →
      (iree_hal_tt_buffer_map_range env b true len).status = TTStatus.ok ∧
      (iree_hal_tt_buffer_map_range env b true len).contents =
        some (fun i => if i < len / 4 then 0 else env.staging_junk i)) := by
  obtain ⟨cm, dp, cb, sm, tm, ro, wo, dd, sj, tj⟩ := env
  cases sm <;> cases tm <;> cases ro <;> cases access_read <;>
    by_cases ht : b.uses_tile_layout <;>
      simp [iree_hal_tt_buffer_map_range, ht]

/-- Witness for C4 (amended): with a failing hardware read-back the 32×32
READ mapping succeeds and hands back a zero-filled staging span. -/
theorem map_range_contract_witness :
    (iree_hal_tt_buffer_map_range { ttOkEnv with read_ok := false }
        { allocation_size := 4096, rows := 32, cols := 32, uses_tile_layout := true }
        true 4096).status = TTStatus.ok ∧
    (iree_hal_tt_buffer_map_range { ttOkEnv with read_ok := false }
        { allocation_size := 4096, rows := 32, cols := 32, uses_tile_layout := true }
        true 4096).contents =
      some (fun i => if i < 4096 / 4 then 0 else (fun _ => 0) i) :=
  (map_range_contract { ttOkEnv with read_ok := false }
      { allocation_size := 4096, rows := 32, cols := 32, uses_tile_layout := true }
      true 4096).2.2.2.2 rfl rfl rfl
